import Mathlib

/-!
Verification of the mindtrace backend slice:
the dashboard statistics aggregator (`app/routes/statsRoutes.py`),
the schema-migration utility (`migrations/remove_mood_column.py`),
and the removal-verification utility (`verify_mood_removal.py`).

The relational rows are embedded as Lean structures, tables as lists of
rows, and each SQL counting query as the corresponding list computation.
Timestamps are timezone-aware UTC instants, embedded as microseconds
since the epoch (`Nat`); total order on instants is the numeric order.
-/

/-- Microseconds in one UTC day. -/
def usPerDay : Nat := 86400000000

/-- `now.replace(hour=0, minute=0, second=0, microsecond=0)` on a
timezone-aware UTC datetime: the UTC midnight that starts the calendar
day containing `now`. -/
def todayStart (now : Nat) : Nat := usPerDay * (now / usPerDay)

/-- Row of the `interactions` table (the attributes the queries read). -/
structure Interaction where
  id : Nat
  user_id : Nat
  contact_id : Option Nat
  timestamp : Nat
deriving DecidableEq, Repr

/-- Row of the `alerts` table. -/
structure Alert where
  id : Nat
  user_id : Nat
  read : Bool
deriving DecidableEq, Repr

/-- Row of the `reminders` table. -/
structure Reminder where
  id : Nat
  user_id : Nat
  completed : Bool
  enabled : Bool
deriving DecidableEq, Repr

/-- The database state visible to the dashboard endpoint. -/
structure DB where
  interactions : List Interaction
  alerts : List Alert
  reminders : List Reminder
deriving DecidableEq, Repr

/-- The response record of `GET /stats/dashboard`: exactly the four
named integer fields, none optional. -/
structure DashboardStats where
  visitors : Nat
  conversations : Nat
  unreadAlerts : Nat
  upcomingReminders : Nat
deriving DecidableEq, Repr

/-- `db.query(func.count(distinct(Interaction.contact_id))).filter(
Interaction.user_id == uid, Interaction.contact_id.isnot(None),
Interaction.timestamp >= today_start).scalar() or 0`:
the number of distinct non-null contact ids among the rows passing the
filter.  Note the query has no upper time bound. -/
def visitorsQuery (db : DB) (uid now : Nat) : Nat :=
  (((db.interactions.filter fun i =>
      i.user_id == uid && i.contact_id.isSome
        && decide (todayStart now ≤ i.timestamp)).filterMap
    fun i => i.contact_id).dedup).length

/-- `db.query(func.count(Interaction.id)).filter(Interaction.user_id ==
uid).scalar() or 0`: row count (ids are non-null). -/
def conversationsQuery (db : DB) (uid : Nat) : Nat :=
  (db.interactions.filter fun i => i.user_id == uid).length

/-- `db.query(func.count(Alert.id)).filter(Alert.user_id == uid,
Alert.read == False).scalar() or 0`. -/
def unreadAlertsQuery (db : DB) (uid : Nat) : Nat :=
  (db.alerts.filter fun a => a.user_id == uid && a.read == false).length

/-- `db.query(func.count(Reminder.id)).filter(Reminder.user_id == uid,
Reminder.completed == False, Reminder.enabled == True).scalar() or 0`. -/
def upcomingRemindersQuery (db : DB) (uid : Nat) : Nat :=
  (db.reminders.filter fun r =>
    r.user_id == uid && r.completed == false && r.enabled == true).length

/-- `get_dashboard_stats` of `app/routes/statsRoutes.py`: the four
counting queries composed into the response record (the debug `print`
calls are non-functional and not modelled). -/
def get_dashboard_stats (db : DB) (uid now : Nat) : DashboardStats :=
  { visitors := visitorsQuery db uid now
    conversations := conversationsQuery db uid
    unreadAlerts := unreadAlertsQuery db uid
    upcomingReminders := upcomingRemindersQuery db uid }

/-- The `visitors` count as the specification's sentence words it:
distinct non-null contact ids among the user's interactions whose
timestamp lies between the UTC start of the current day and the
supplied `now` instant, both bounds inclusive.  Written from the spec,
to be compared with `visitorsQuery` (which is written from the code). -/
def specVisitorsClaimed (db : DB) (uid now : Nat) : Nat :=
  (((db.interactions.filter fun i =>
      decide (i.user_id = uid ∧ i.contact_id ≠ none
        ∧ todayStart now ≤ i.timestamp ∧ i.timestamp ≤ now)).filterMap
    fun i => i.contact_id).toFinset).card

/-- The `visitors` count with the upper bound removed, matching the
code's filter: distinct non-null contact ids among the user's
interactions with timestamp at or after the UTC start of the current
day, with no upper bound. -/
def specVisitorsAmended (db : DB) (uid now : Nat) : Nat :=
  (((db.interactions.filter fun i =>
      decide (i.user_id = uid ∧ i.contact_id ≠ none
        ∧ todayStart now ≤ i.timestamp)).filterMap
    fun i => i.contact_id).toFinset).card

/-- A database holding a single interaction of user 1 whose timestamp
(1 µs after the epoch) is strictly after the instant `now = 0` but
inside the same UTC day. -/
def dbFutureTs : DB :=
  { interactions := [⟨1, 1, some 5, 1⟩], alerts := [], reminders := [] }

/-!
## Migration utility (`migrations/remove_mood_column.py`)

The schema of the `interactions` table is its list of column names.
`db.execute` calls can raise, modelled by the flags `selectFails`
(the `information_schema` lookup raises) and `dropFails` (the
`ALTER TABLE ... DROP COLUMN` raises).  The function returns the
committed schema after the run together with the termination kind:
on any raise the code calls `db.rollback()` — the committed schema is
the original one — and re-raises.
-/

/-- How a run of the migration process ends. -/
inductive MigOutcome where
  | success
  | raised (msg : String)
deriving DecidableEq, Repr

/-- `remove_mood_column` of `migrations/remove_mood_column.py`:
look up `mood` in `information_schema.columns` for `interactions`;
if present, `ALTER TABLE interactions DROP COLUMN mood` and commit,
else a printed no-op; any raise rolls back and re-raises.
Returns (committed schema after the run, outcome). -/
def remove_mood_column (cols : List String) (selectFails dropFails : Bool) :
    List String × MigOutcome :=
  if selectFails then
    (cols, MigOutcome.raised "query error")
  else if "mood" ∈ cols then
    if dropFails then
      (cols, MigOutcome.raised "ddl error")
    else
      (cols.filter fun c => c ≠ "mood", MigOutcome.success)
  else
    (cols, MigOutcome.success)

/-- `response.lower() in ['yes', 'y']`; lowercasing is taken character
by character. -/
def affirmative (response : String) : Bool :=
  (response.data.map Char.toLower == "yes".data)
    || (response.data.map Char.toLower == "y".data)

/-- The `__main__` block of `migrations/remove_mood_column.py`: prompt
for confirmation, run `remove_mood_column` only on an affirmative
answer, otherwise print "Migration cancelled" and terminate normally
with the database untouched. -/
def migration_main (response : String) (cols : List String)
    (selectFails dropFails : Bool) : List String × MigOutcome :=
  if affirmative response then remove_mood_column cols selectFails dropFails
  else (cols, MigOutcome.success)

/-!
## Verification utility (`verify_mood_removal.py`)

Each check's interaction with the outside world is a field of
`VerifyEnv`; a check body is an `Except`-valued computation (it can
raise), and the check function is the body wrapped in the script's
`try/except` handler, which turns a raise into a `False` result for
that check.  A ChromaDB metadata record is its list of keys; a source
file is a list of lines, each a list of characters, with `none`
standing for a file whose `open` raises.
-/

/-- Outside-world inputs of one run of `verify_mood_removal.py`. -/
structure VerifyEnv where
  /-- The `information_schema` lookup raises. -/
  schemaRaises : Bool
  /-- The `information_schema` lookup finds a `mood` column. -/
  schemaHasMood : Bool
  /-- The ChromaDB client raises. -/
  chromaRaises : Bool
  /-- `collection.get(limit=5)` metadata records (key lists);
  `none` when there are no results or no metadatas. -/
  chromaMetadatas : Option (List (List String))
  /-- `from app.models import Interaction` raises. -/
  modelRaises : Bool
  /-- `hasattr(Interaction, 'mood')`. -/
  modelHasMood : Bool
  /-- Contents of the four files of `files_to_check`, in order; `none`
  for a file whose `open` raises, otherwise its list of lines. -/
  routeFiles : List (Option (List (List Char)))

/-- Body of `check_database_schema`, before its `try/except`. -/
def dbSchemaBody (env : VerifyEnv) : Except String Bool :=
  if env.schemaRaises then Except.error "db error"
  else Except.ok (!env.schemaHasMood)

/-- Body of `check_chromadb_metadata`, before its `try/except`: no
entries is a warning returning `True`; entries carrying a `mood` key
are a warning that still returns `True` (the two branches print
different messages but return the same value). -/
def chromaBody (env : VerifyEnv) : Except String Bool :=
  if env.chromaRaises then Except.error "chroma error"
  else
    match env.chromaMetadatas with
    | none => Except.ok true
    | some [] => Except.ok true
    | some ms =>
      if ms.any fun m => m.contains "mood" then Except.ok true
      else Except.ok true

/-- Body of `check_model_definition`, before its `try/except`. -/
def modelBody (env : VerifyEnv) : Except String Bool :=
  if env.modelRaises then Except.error "import error"
  else Except.ok (!env.modelHasMood)

/-- The characters of the token `mood`. -/
def moodChars : List Char := ['m', 'o', 'o', 'd']

/-- The double-quote character. -/
def dquoteC : Char := Char.ofNat 34

/-- The single-quote character. -/
def squoteC : Char := Char.ofNat 39

/-- The token `mood` surrounded by double quotes. -/
def quotedMoodD : List Char := [dquoteC] ++ moodChars ++ [dquoteC]

/-- The token `mood` surrounded by single quotes. -/
def quotedMoodS : List Char := [squoteC] ++ moodChars ++ [squoteC]

/-- Python `str.strip()`: drop whitespace from both ends. -/
def pyStrip (l : List Char) : List Char :=
  ((l.dropWhile fun c => c.isWhitespace).reverse.dropWhile
    fun c => c.isWhitespace).reverse

/-- Python `s.startswith('#')`. -/
def startsWithHash (l : List Char) : Bool :=
  match l with
  | [] => false
  | c :: _ => c == '#'

/-- The line filter of `check_route_definitions` (lines 109-112): a
line lands in `mood_refs` iff its lowercasing contains `mood`, its
stripped form does not start with `#`, and it contains the token in
double or single quotes. -/
def flaggedMood (line : List Char) : Bool :=
  decide (moodChars <:+: line.map Char.toLower)
    && !startsWithHash (pyStrip line)
    && (decide (quotedMoodD <:+: line) || decide (quotedMoodS <:+: line))

/-- Per-file contribution to `all_clean`: an unreadable file (its
per-file `except` branch) and a file with a non-empty `mood_refs` both
clear the flag. -/
def fileClean (f : Option (List (List Char))) : Bool :=
  match f with
  | none => false
  | some lines => lines.all fun l => !flaggedMood l

/-- Body of `check_route_definitions`: the loop over the fixed file
list never raises past the per-file handler, so the body is total. -/
def routeBody (env : VerifyEnv) : Except String Bool :=
  Except.ok (env.routeFiles.all fileClean)

/-- The script's `try/except Exception` wrapper: a raise inside a
check becomes a printed ERROR and a `False` result for that check. -/
def catchToBool (e : Except String Bool) : Bool :=
  match e with
  | Except.ok b => b
  | Except.error _ => false

/-- `check_database_schema` of `verify_mood_removal.py`. -/
def check_database_schema (env : VerifyEnv) : Bool :=
  catchToBool (dbSchemaBody env)

/-- `check_chromadb_metadata` of `verify_mood_removal.py`. -/
def check_chromadb_metadata (env : VerifyEnv) : Bool :=
  catchToBool (chromaBody env)

/-- `check_model_definition` of `verify_mood_removal.py`. -/
def check_model_definition (env : VerifyEnv) : Bool :=
  catchToBool (modelBody env)

/-- `check_route_definitions` of `verify_mood_removal.py`. -/
def check_route_definitions (env : VerifyEnv) : Bool :=
  catchToBool (routeBody env)

/-- The indexed bodies, in the order `main` runs the checks. -/
def checkBody (i : Fin 4) : VerifyEnv → Except String Bool :=
  match i.val with
  | 0 => dbSchemaBody
  | 1 => chromaBody
  | 2 => modelBody
  | _ => routeBody

/-- The name `main` prints for each check, in order. -/
def checkName (i : Fin 4) : String :=
  match i.val with
  | 0 => "Database Schema"
  | 1 => "ChromaDB Metadata"
  | 2 => "Model Definition"
  | _ => "Route Definitions"

/-- The `results` list built by `main`. -/
def runChecks (env : VerifyEnv) : List (String × Bool) :=
  [("Database Schema", check_database_schema env),
   ("ChromaDB Metadata", check_chromadb_metadata env),
   ("Model Definition", check_model_definition env),
   ("Route Definitions", check_route_definitions env)]

/-- `main` of `verify_mood_removal.py`: `all_passed = all(result[1]
for result in results)`; exit code `0 if all_passed else 1`. -/
def verify_main (env : VerifyEnv) : Nat :=
  if (runChecks env).all fun r => r.2 then 0 else 1

/-!
## Concrete states used by counterexamples and witnesses
-/

/-- The instant one hour into the second UTC day; its day starts at
`usPerDay`. -/
def scenarioNow : Nat := usPerDay + 3600000000

/-- User 1 has three interactions today (two with distinct non-null
contact ids, one with a null contact id) and two interactions from
yesterday that carry contact ids. -/
def scenarioDB : DB :=
  { interactions :=
      [⟨1, 1, some 100, usPerDay + 10⟩,
       ⟨2, 1, some 200, usPerDay + 20⟩,
       ⟨3, 1, none, usPerDay + 30⟩,
       ⟨4, 1, some 300, 10⟩,
       ⟨5, 1, some 400, 20⟩]
    alerts := []
    reminders := [] }

/-- User 1 owns a single reminder that is incomplete but disabled. -/
def dbDisabledReminder : DB :=
  { interactions := []
    alerts := []
    reminders := [⟨1, 1, false, false⟩] }

/-- A database where every row belongs to user 2, none to user 1. -/
def dbOtherUserRows : DB :=
  { interactions := [⟨1, 2, some 9, 50⟩]
    alerts := [⟨1, 2, false⟩]
    reminders := [⟨1, 2, false, true⟩] }

/-- A second database agreeing with `dbOtherUserRows` on user 1's
(empty) rows while user 2's rows differ arbitrarily. -/
def dbOtherUserRowsAlt : DB :=
  { interactions := [⟨7, 2, some 3, scenarioNow⟩, ⟨8, 2, none, 4⟩]
    alerts := []
    reminders := [⟨9, 2, true, true⟩, ⟨10, 2, false, true⟩] }

/-- The characters of the line `x = "mood"`. -/
def lineWithQuotedMood : List Char := ['x', ' ', '=', ' '] ++ quotedMoodD

/-- The characters of the line `y = i.mood`: the token occurs only as
a bare identifier, with no surrounding quotes. -/
def lineBareMood : List Char := ['y', ' ', '=', ' ', 'i', '.'] ++ moodChars

/-- A run of the verification utility where the schema, ChromaDB and
model checks all pass, every route file opens, and the only anomaly is
one quoted `mood` token in the first route file. -/
def envQuotedMoodOnly : VerifyEnv :=
  { schemaRaises := false
    schemaHasMood := false
    chromaRaises := false
    chromaMetadatas := some [["title"]]
    modelRaises := false
    modelHasMood := false
    routeFiles := [some [lineWithQuotedMood], some [], some [], some []] }

/-- A run of the verification utility where only the database-schema
lookup raises; everything else is clean. -/
def envRaisesDb : VerifyEnv :=
  { schemaRaises := true
    schemaHasMood := false
    chromaRaises := false
    chromaMetadatas := none
    modelRaises := false
    modelHasMood := false
    routeFiles := [some [], some [], some [], some []] }

/-!
## Helper lemmas
-/

/-- Filtering by a conjunction is filtering twice. -/
theorem filter_and_split {α : Type} (l : List α) (p q : α → Bool) :
    (l.filter fun a => p a && q a) = (l.filter p).filter q := by
  induction l with
  | nil => rfl
  | cons a t ih =>
    cases hp : p a <;> cases hq : q a <;>
      simp [List.filter_cons, hp, hq, ih]

/-- The `visitors` query, factored through the user-scoped rows. -/
theorem visitorsQuery_factored (db : DB) (uid now : Nat) :
    visitorsQuery db uid now
      = (((((db.interactions.filter fun i => i.user_id == uid).filter
          fun i => i.contact_id.isSome).filter
          fun i => decide (todayStart now ≤ i.timestamp)).filterMap
        fun i => i.contact_id).dedup).length := by
  unfold visitorsQuery
  rw [filter_and_split db.interactions
      (fun i => i.user_id == uid && i.contact_id.isSome)
      (fun i => decide (todayStart now ≤ i.timestamp)),
    filter_and_split db.interactions
      (fun i => i.user_id == uid) (fun i => i.contact_id.isSome)]

/-- The `unreadAlerts` query, factored through the user-scoped rows. -/
theorem unreadAlertsQuery_factored (db : DB) (uid : Nat) :
    unreadAlertsQuery db uid
      = ((db.alerts.filter fun a => a.user_id == uid).filter
          fun a => a.read == false).length := by
  unfold unreadAlertsQuery
  rw [filter_and_split db.alerts
      (fun a => a.user_id == uid) (fun a => a.read == false)]

/-- The `upcomingReminders` query, factored through the user-scoped
rows. -/
theorem upcomingRemindersQuery_factored (db : DB) (uid : Nat) :
    upcomingRemindersQuery db uid
      = (((db.reminders.filter fun r => r.user_id == uid).filter
          fun r => r.completed == false).filter
          fun r => r.enabled == true).length := by
  unfold upcomingRemindersQuery
  rw [filter_and_split db.reminders
      (fun r => r.user_id == uid && r.completed == false)
      (fun r => r.enabled == true),
    filter_and_split db.reminders
      (fun r => r.user_id == uid) (fun r => r.completed == false)]

/-!
## Claim theorems
-/

/-- C1 counterexample: at `now = 0`, user 1's single interaction with
timestamp `1` lies after `now` but at-or-after the UTC day start, so
the code counts it as a visitor while the claimed bound `timestamp ≤
now` excludes it — the claimed equality fails on this state. -/
theorem visitors_upper_bound_counterexample :
    (get_dashboard_stats dbFutureTs 1 0).visitors = 1
    ∧ specVisitorsClaimed dbFutureTs 1 0 = 0 := by
  decide

/-- C1 (amended): `visitors` equals the number of distinct non-null
contact identifiers among the user's interactions whose timestamp is
at or after the UTC start of the current day, with no upper bound at
`now` — interactions stamped after `now` are also counted. -/
theorem visitors_eq_specAmended (db : DB) (uid now : Nat) :
    (get_dashboard_stats db uid now).visitors
      = specVisitorsAmended db uid now := by
  have h : (db.interactions.filter fun i =>
        i.user_id == uid && i.contact_id.isSome
          && decide (todayStart now ≤ i.timestamp))
      = db.interactions.filter fun i =>
        decide (i.user_id = uid ∧ i.contact_id ≠ none
          ∧ todayStart now ≤ i.timestamp) := by
    apply List.filter_congr
    intro i _
    rw [Bool.eq_iff_iff]
    simp [Option.isSome_iff_ne_none, and_assoc]
  simp only [get_dashboard_stats, visitorsQuery, specVisitorsAmended, h,
    List.card_toFinset]

/-- C4: `conversations` is the all-time row count of the user's
interactions, with no time filter; on the spec's scenario (three
interactions today — two distinct non-null contact ids, one null — and
two from yesterday with contact ids) the endpoint yields `visitors =
2` and `conversations = 5`. -/
theorem conversations_all_time :
    (∀ (db : DB) (uid now : Nat),
      (get_dashboard_stats db uid now).conversations
        = db.interactions.countP fun i => decide (i.user_id = uid))
    ∧ (get_dashboard_stats scenarioDB 1 scenarioNow).visitors = 2
    ∧ (get_dashboard_stats scenarioDB 1 scenarioNow).conversations = 5 := by
  refine ⟨?_, by decide, by decide⟩
  intro db uid now
  simp only [get_dashboard_stats, conversationsQuery,
    List.countP_eq_length_filter]
  congr 1

/-- C5: `upcomingReminders` counts exactly the user's reminders with
`completed = false` and `enabled = true`; a reminder that is
incomplete but disabled is excluded (user 1's sole such reminder
yields a zero count). -/
theorem upcomingReminders_requires_enabled :
    (∀ (db : DB) (uid now : Nat),
      (get_dashboard_stats db uid now).upcomingReminders
        = db.reminders.countP fun r =>
            decide (r.user_id = uid ∧ r.completed = false ∧ r.enabled = true))
    ∧ (get_dashboard_stats dbDisabledReminder 1 0).upcomingReminders = 0 := by
  refine ⟨?_, by decide⟩
  intro db uid now
  simp only [get_dashboard_stats, upcomingRemindersQuery,
    List.countP_eq_length_filter]
  congr 1
  apply List.filter_congr
  intro r _
  rw [Bool.eq_iff_iff]
  simp [and_assoc]

/-- C3: the dashboard response is a function of the requesting user's
own rows alone — two database states that agree on user `uid`'s
interactions, alerts and reminders produce identical four-field
responses, however the other users' rows differ; moreover
`unreadAlerts` counts exactly the user's alerts with `read = false`. -/
theorem dashboard_user_scoped (db1 db2 : DB) (uid now : Nat)
    (hI : (db1.interactions.filter fun i => i.user_id == uid)
        = db2.interactions.filter fun i => i.user_id == uid)
    (hA : (db1.alerts.filter fun a => a.user_id == uid)
        = db2.alerts.filter fun a => a.user_id == uid)
    (hR : (db1.reminders.filter fun r => r.user_id == uid)
        = db2.reminders.filter fun r => r.user_id == uid) :
    get_dashboard_stats db1 uid now = get_dashboard_stats db2 uid now
    ∧ (get_dashboard_stats db1 uid now).unreadAlerts
        = db1.alerts.countP fun a => decide (a.user_id = uid ∧ a.read = false) := by
  constructor
  · have hv : visitorsQuery db1 uid now = visitorsQuery db2 uid now := by
      rw [visitorsQuery_factored, visitorsQuery_factored, hI]
    have hc : conversationsQuery db1 uid = conversationsQuery db2 uid := by
      unfold conversationsQuery
      rw [hI]
    have ha : unreadAlertsQuery db1 uid = unreadAlertsQuery db2 uid := by
      rw [unreadAlertsQuery_factored, unreadAlertsQuery_factored, hA]
    have hr : upcomingRemindersQuery db1 uid = upcomingRemindersQuery db2 uid := by
      rw [upcomingRemindersQuery_factored, upcomingRemindersQuery_factored, hR]
    simp [get_dashboard_stats, hv, hc, ha, hr]
  · simp only [get_dashboard_stats, unreadAlertsQuery,
      List.countP_eq_length_filter]
    congr 1
    apply List.filter_congr
    intro a _
    rw [Bool.eq_iff_iff]
    simp

/-- C3 witness: two concrete states holding only user 2's rows (and
differing on them) are indistinguishable to user 1's dashboard. -/
theorem dashboard_user_scoped_witness :
    get_dashboard_stats dbOtherUserRows 1 0
      = get_dashboard_stats dbOtherUserRowsAlt 1 0
    ∧ (get_dashboard_stats dbOtherUserRows 1 0).unreadAlerts
        = dbOtherUserRows.alerts.countP fun a =>
            decide (a.user_id = 1 ∧ a.read = false) :=
  dashboard_user_scoped dbOtherUserRows dbOtherUserRowsAlt 1 0
    (by decide) (by decide) (by decide)

/-- C6: when no interaction, alert or reminder row belongs to the
requesting user, the response is the record with all four fields 0;
the fields are `Nat`-valued components of a total record, hence
non-negative, never null and never absent. -/
theorem dashboard_zero_when_no_rows (db : DB) (uid now : Nat)
    (hI : (db.interactions.filter fun i => i.user_id == uid) = [])
    (hA : (db.alerts.filter fun a => a.user_id == uid) = [])
    (hR : (db.reminders.filter fun r => r.user_id == uid) = []) :
    get_dashboard_stats db uid now = ⟨0, 0, 0, 0⟩ := by
  have hv : visitorsQuery db uid now = 0 := by
    rw [visitorsQuery_factored, hI]
    rfl
  have hc : conversationsQuery db uid = 0 := by
    unfold conversationsQuery
    rw [hI]
    rfl
  have ha : unreadAlertsQuery db uid = 0 := by
    rw [unreadAlertsQuery_factored, hA]
    rfl
  have hr : upcomingRemindersQuery db uid = 0 := by
    rw [upcomingRemindersQuery_factored, hR]
    rfl
  simp [get_dashboard_stats, hv, hc, ha, hr]

/-- C6 witness: user 1 owns no row of `dbOtherUserRows` (which is not
empty — all its rows belong to user 2), so user 1's dashboard is all
zeros. -/
theorem dashboard_zero_when_no_rows_witness :
    get_dashboard_stats dbOtherUserRows 1 0 = ⟨0, 0, 0, 0⟩ :=
  dashboard_zero_when_no_rows dbOtherUserRows 1 0
    (by decide) (by decide) (by decide)

/-- C7: the migration is idempotent — on a schema lacking the `mood`
column it is a successful no-op leaving the schema unchanged, and for
any schema a second (fault-free) run is a successful no-op on the
first run's result, so two runs end in the same schema as one. -/
theorem migration_idempotent (cols : List String) (h : "mood" ∉ cols) :
    remove_mood_column cols false false = (cols, MigOutcome.success)
    ∧ ∀ cs : List String,
        remove_mood_column (remove_mood_column cs false false).1 false false
          = ((remove_mood_column cs false false).1, MigOutcome.success) := by
  constructor
  · simp [remove_mood_column, h]
  · intro cs
    by_cases hm : "mood" ∈ cs
    · have hgone : "mood" ∉ cs.filter fun c => c ≠ "mood" := by simp
      simp [remove_mood_column, hm, hgone]
    · simp [remove_mood_column, hm]

/-- C7 witness: a two-column schema without `mood`. -/
theorem migration_idempotent_witness :
    remove_mood_column ["id", "user_id"] false false
      = (["id", "user_id"], MigOutcome.success)
    ∧ ∀ cs : List String,
        remove_mood_column (remove_mood_column cs false false).1 false false
          = ((remove_mood_column cs false false).1, MigOutcome.success) :=
  migration_idempotent ["id", "user_id"] (by decide)

/-- C8: every raising run of the migration leaves the committed schema
equal to the original one (the rollback), re-raising being visible in
the outcome; and a non-affirmative confirmation answer ends the
process normally without touching the database. -/
theorem migration_rollback_and_cancel (response : String)
    (cols : List String) (sf df : Bool) :
    (∀ msg, (remove_mood_column cols sf df).2 = MigOutcome.raised msg
        → (remove_mood_column cols sf df).1 = cols)
    ∧ (affirmative response = false
        → migration_main response cols sf df = (cols, MigOutcome.success)) := by
  constructor
  · intro msg hmsg
    cases sf with
    | true => simp [remove_mood_column]
    | false =>
      by_cases hm : "mood" ∈ cols
      · cases df with
        | true => simp [remove_mood_column, hm]
        | false => simp [remove_mood_column, hm] at hmsg
      · simp [remove_mood_column, hm]
  · intro hneg
    simp [migration_main, hneg]

/-- C8 witness: with the `mood` column present and the DROP raising,
the committed schema stays `["mood"]`; answering `no` cancels with the
schema untouched. -/
theorem migration_rollback_and_cancel_witness :
    (remove_mood_column ["mood"] false true).1 = ["mood"]
    ∧ migration_main "no" ["mood"] false true
        = (["mood"], MigOutcome.success) :=
  ⟨(migration_rollback_and_cancel "no" ["mood"] false true).1
      "ddl error" (by decide),
    (migration_rollback_and_cancel "no" ["mood"] false true).2 (by decide)⟩

/-- The schema check passes iff its lookup neither raised nor found
the column. -/
theorem check_db_eq (env : VerifyEnv) :
    check_database_schema env = (!env.schemaRaises && !env.schemaHasMood) := by
  unfold check_database_schema dbSchemaBody catchToBool
  cases env.schemaRaises <;> simp

/-- The ChromaDB check passes iff its client did not raise: both the
no-entries case and the `mood`-key case are warnings returning
`True`. -/
theorem check_chroma_eq (env : VerifyEnv) :
    check_chromadb_metadata env = !env.chromaRaises := by
  unfold check_chromadb_metadata chromaBody catchToBool
  cases env.chromaRaises with
  | true => simp
  | false =>
    cases env.chromaMetadatas with
    | none => simp
    | some ms =>
      cases ms with
      | nil => simp
      | cons m t => simp [ite_self]

/-- The model check passes iff the import neither raised nor exposed
the attribute. -/
theorem check_model_eq (env : VerifyEnv) :
    check_model_definition env = (!env.modelRaises && !env.modelHasMood) := by
  unfold check_model_definition modelBody catchToBool
  cases env.modelRaises <;> simp

/-- The route check passes iff every listed file opens and carries no
flagged line. -/
theorem check_route_eq (env : VerifyEnv) :
    check_route_definitions env = env.routeFiles.all fileClean := rfl

/-- C2 counterexample: a run whose only anomaly is one quoted `mood`
token in a route file — the schema, ChromaDB and model checks all
pass and every route file opens — still exits with code 1, so the
textual check's occurrences are not mere warnings. -/
theorem verify_warning_flips_exit_counterexample :
    verify_main envQuotedMoodOnly = 1
    ∧ check_database_schema envQuotedMoodOnly = true
    ∧ check_chromadb_metadata envQuotedMoodOnly = true
    ∧ check_model_definition envQuotedMoodOnly = true
    ∧ envQuotedMoodOnly.routeFiles.all (fun f => f.isSome) = true := by
  decide

/-- C2 (amended): the exit code is 0 iff all four checks return true:
the schema lookup neither raises nor finds the column, the ChromaDB
client does not raise (its no-entry and `mood`-metadata warnings never
matter), the model import neither raises nor exposes the attribute,
and every listed route file opens and contains no line with a quoted
`mood` token — occurrences found by the textual check therefore do
flip the exit code to 1, despite being printed as warnings. -/
theorem verify_exit_characterization (env : VerifyEnv) :
    verify_main env = 0
      ↔ (env.schemaRaises = false ∧ env.schemaHasMood = false
          ∧ env.chromaRaises = false
          ∧ env.modelRaises = false ∧ env.modelHasMood = false
          ∧ env.routeFiles.all fileClean = true) := by
  unfold verify_main
  simp only [runChecks, List.all_cons, List.all_nil, Bool.and_true,
    check_db_eq, check_chroma_eq, check_model_eq, check_route_eq]
  cases hsr : env.schemaRaises <;> cases hshm : env.schemaHasMood <;>
    cases hcr : env.chromaRaises <;> cases hmr : env.modelRaises <;>
      cases hmhm : env.modelHasMood <;>
        cases hrf : env.routeFiles.all fileClean <;> simp

/-- C9: check isolation — whenever the body of any of the four checks
raises, `main` still assembles all four summary entries, the raising
check alone reports `false` through its handler, every entry equals
its own check's guarded value computed from that check's inputs only,
and inside the route check an unreadable file likewise only clears
that check's flag. -/
theorem verify_checks_isolated (env : VerifyEnv) (i : Fin 4) (e : String)
    (h : checkBody i env = Except.error e) :
    (runChecks env).length = 4
    ∧ (runChecks env).get ⟨i.val, by simp [runChecks]⟩
        = (checkName i, false)
    ∧ (∀ j : Fin 4,
        (runChecks env).get ⟨j.val, by simp [runChecks]⟩
          = (checkName j, catchToBool (checkBody j env)))
    ∧ (none ∈ env.routeFiles → check_route_definitions env = false) := by
  refine ⟨rfl, ?_, ?_, ?_⟩
  · obtain ⟨iv, hiv⟩ := i
    interval_cases iv
    · simp only [checkBody] at h
      simp [runChecks, checkName, checkBody, check_database_schema, h,
        catchToBool]
    · simp only [checkBody] at h
      simp [runChecks, checkName, checkBody, check_chromadb_metadata, h,
        catchToBool]
    · simp only [checkBody] at h
      simp [runChecks, checkName, checkBody, check_model_definition, h,
        catchToBool]
    · simp only [checkBody] at h
      exact Except.noConfusion h
  · intro j
    obtain ⟨jv, hjv⟩ := j
    interval_cases jv <;>
      simp [runChecks, checkName, checkBody, check_database_schema,
        check_chromadb_metadata, check_model_definition,
        check_route_definitions] <;>
      rfl
  · intro hn
    simp only [check_route_definitions, routeBody, catchToBool]
    by_contra hall
    rw [Bool.not_eq_false] at hall
    have hc := List.all_eq_true.mp hall none hn
    simp [fileClean] at hc

/-- C9 witness: in the run where only the schema lookup raises, the
summary still has four entries and the first reports a failure. -/
theorem verify_checks_isolated_witness :
    (runChecks envRaisesDb).length = 4
    ∧ (runChecks envRaisesDb).get ⟨0, by simp [runChecks]⟩
        = (checkName 0, false) :=
  ⟨(verify_checks_isolated envRaisesDb 0 "db error" rfl).1,
   (verify_checks_isolated envRaisesDb 0 "db error" rfl).2.1⟩

/-- C10: the textual check flags a line only when the token appears
between matching double or single quotes on a line whose stripped text
does not start with `#`; consequently a line where the token occurs
only as a bare identifier, such as `y = i.mood`, is never flagged. -/
theorem route_check_flags_only_quoted (line : List Char)
    (h : flaggedMood line = true) :
    ((quotedMoodD <:+: line ∨ quotedMoodS <:+: line)
      ∧ startsWithHash (pyStrip line) = false)
    ∧ flaggedMood lineBareMood = false := by
  refine ⟨?_, by decide⟩
  unfold flaggedMood at h
  simp only [Bool.and_eq_true, Bool.or_eq_true, decide_eq_true_eq,
    Bool.not_eq_true'] at h
  exact ⟨h.2, h.1.2⟩

/-- C10 witness: the line `x = "mood"` is flagged, carries the
double-quoted token and is not a comment line. -/
theorem route_check_flags_only_quoted_witness :
    ((quotedMoodD <:+: lineWithQuotedMood
        ∨ quotedMoodS <:+: lineWithQuotedMood)
      ∧ startsWithHash (pyStrip lineWithQuotedMood) = false)
    ∧ flaggedMood lineBareMood = false :=
  route_check_flags_only_quoted lineWithQuotedMood (by decide)
